import Mathlib

/-!
Verification development for the ElderSafe gateway (`src/raspberrypi`).

The definitions below are a shallow embedding of the decision logic of
`main.py` (MQTT message handler, emergency protocol, emotion publish loop),
`modules/vision_ai.py` (`VisionSystem.analyze_scene`) and
`modules/hardware_ctrl.py` (`HardwareManager.read_env`).
Floating point values are modelled as rationals; nondeterministic inputs
(sensor reads, random fallbacks, detected faces) are explicit parameters.
-/

namespace ElderSafe

/-! ### Configuration constants, from `src/raspberrypi/config.py` -/

namespace Config

/-- `G_FORCE_LIMIT = 1.8` (gravities). -/
def G_FORCE_LIMIT : ℚ := 9/5

/-- `MIC_THRESHOLD = 150`. -/
def MIC_THRESHOLD : ℚ := 150

/-- `CAM_FALL_CONF_THRESHOLD = 0.6`. -/
def CAM_FALL_CONF_THRESHOLD : ℚ := 3/5

/-- `ENV_INTERVAL = 5` (seconds). -/
def ENV_INTERVAL : ℕ := 5

end Config

/-! ### Inbound motion messages (`on_mqtt_message`, motion branch) -/

/-- A parsed motion payload. `none` models a missing or unparseable field,
which `float(payload.get('g_force', 0))` (wrapped in `try/except`) coerces
to `0`. -/
structure MotionPayload where
  g_force : Option ℚ
  mic : Option ℚ
deriving DecidableEq

/-- The `g_val` computed by the motion branch: the parsed value, or `0`
when the field is missing or unparseable. -/
def parsedG (p : MotionPayload) : ℚ := p.g_force.getD 0

/-- The `mic_val` computed by the motion branch. -/
def parsedMic (p : MotionPayload) : ℚ := p.mic.getD 0

/-- Whether the motion branch starts the emergency protocol:
`if g_val > config.G_FORCE_LIMIT`. -/
def motionTriggers (p : MotionPayload) : Bool :=
  decide (Config.G_FORCE_LIMIT < parsedG p)

/-- The globals of `main.py` that the motion branch writes
(`global_critical_alert`, `global_latest_g_force`, `global_latest_mic`)
together with a count of `handle_emergency` threads spawned so far. -/
structure GatewayState where
  criticalAlert : String
  latestG : ℚ
  latestMic : ℚ
  emergencyCyclesInFlight : ℕ
deriving DecidableEq

/-- Effect of the motion branch of `on_mqtt_message` on the gateway state:
updates the latest-motion globals, then either spawns `handle_emergency`
and sets the alert to `"FALL DETECTED"` (when `g_val > G_FORCE_LIMIT`) or
sets the alert to `"ALERT_OK"`. The branch consults no other state. -/
def applyMotion (s : GatewayState) (p : MotionPayload) : GatewayState :=
  if Config.G_FORCE_LIMIT < parsedG p then
    { s with criticalAlert := "FALL DETECTED",
             latestG := parsedG p, latestMic := parsedMic p,
             emergencyCyclesInFlight := s.emergencyCyclesInFlight + 1 }
  else
    { s with criticalAlert := "ALERT_OK",
             latestG := parsedG p, latestMic := parsedMic p }

/-! ### Inbound camera messages (`on_mqtt_message`, cam branch) -/

/-- The trigger decision of the cam branch of `on_mqtt_message`.
`fallVal` is `int(payload.get('fall_detected', 0))`; `conf` is the parsed
confidence, where `none` models a payload carrying no usable confidence
(missing under all three accepted keys, or unparseable, in which case the
code sets `conf = None`). -/
def camTrigger (fallVal : ℤ) (conf : Option ℚ) : Bool :=
  if fallVal = 1 then
    match conf with
    | none => true
    | some c => decide (Config.CAM_FALL_CONF_THRESHOLD ≤ c)
  else false

/-- `max 0 (min 1 q)`: the clamp into `[0,1]`. -/
def clamp01 (q : ℚ) : ℚ := max 0 (min 1 q)

/-- Spec-side comparator for the cam branch, following the spec's words:
a supplied confidence is clamped into `[0,1]` before being compared with
`CAM_FALL_CONF_THRESHOLD`. Used only to compare with `camTrigger`. -/
def camTriggerClamped (fallVal : ℤ) (conf : Option ℚ) : Bool :=
  if fallVal = 1 then
    match conf with
    | none => true
    | some c => decide (Config.CAM_FALL_CONF_THRESHOLD ≤ clamp01 c)
  else false

/-! ### The emergency protocol (`handle_emergency`) and its dispatch -/

/-- One observable hardware/bus action of the emergency path. -/
inductive HwAction where
  | triggerEmergency
  | publishFallEvent
  | sleep (seconds : ℕ)
  | resetEmergency
deriving DecidableEq

/-- The body of `handle_emergency(mqtt_client)`:
`hw.trigger_emergency()`, publish a fall event on the env topic,
`time.sleep(3)`, `hw.reset_emergency()`. Every invocation runs this whole
sequence; there is no phase check anywhere in it. -/
def handle_emergency : List HwAction :=
  [.triggerEmergency, .publishFallEvent, .sleep 3, .resetEmergency]

/-- Number of actuation activations (`hw.trigger_emergency()` calls) in a
trace. -/
def actuationCount (t : List HwAction) : ℕ :=
  t.countP (· == HwAction.triggerEmergency)

/-- Number of actuation resets (`hw.reset_emergency()` calls) in a trace. -/
def resetCount (t : List HwAction) : ℕ :=
  t.countP (· == HwAction.resetEmergency)

/-- Seconds slept before the first reset of a trace. -/
def sleepBeforeFirstReset (t : List HwAction) : ℕ :=
  ((t.takeWhile (· != HwAction.resetEmergency)).filterMap
    (fun a => match a with | .sleep n => some n | _ => none)).sum

/-- An inbound MQTT message reaching `on_mqtt_message` with a decodable
payload, on the motion or the cam topic. -/
inductive InMsg where
  | motion (p : MotionPayload)
  | cam (fallVal : ℤ) (conf : Option ℚ)
deriving DecidableEq

/-- Whether a message makes `on_mqtt_message` spawn a `handle_emergency`
thread: the motion branch spawns one iff `g_val > G_FORCE_LIMIT`; the cam
branch spawns one iff its `trigger` flag is set. -/
def confirms : InMsg → Bool
  | .motion p => motionTriggers p
  | .cam f c => camTrigger f c

/-- Number of `handle_emergency` threads spawned while processing a
message sequence: one per confirming message, unconditionally (the
handler keeps no emergency phase and never checks one). -/
def spawnedCycles (msgs : List InMsg) : ℕ :=
  (msgs.filter confirms).length

/-- The concatenated action trace of all `handle_emergency` threads
spawned by a message sequence. Counting actions is invariant under the
actual thread interleaving, so concatenation loses nothing for counts. -/
def emergencyTrace (msgs : List InMsg) : List HwAction :=
  (msgs.filter confirms).flatMap (fun _ => handle_emergency)

/-! ### Vision analysis (`modules/vision_ai.py`, `VisionSystem.analyze_scene`) -/

/-- The dict returned by `analyze_scene`:
`{"fall_detected": "0"|"1", "confidence": float}`. -/
structure VisionResult where
  fall_detected : String
  confidence : ℚ
deriving DecidableEq

/-- Python's `round(q, 2)` (modelled with round-half-up on rationals). -/
def round2 (q : ℚ) : ℚ := (round (q * 100) : ℤ) / 100

/-- Python's `round(q, 1)` (modelled with round-half-up on rationals). -/
def round1 (q : ℚ) : ℚ := (round (q * 10) : ℤ) / 10

/-- `VisionSystem.analyze_scene`, OpenCV branch, given the captured frame's
dimensions and the face rectangles `(x, y, w, h)` which
`face_cascade.detectMultiScale` returned (empty also models a detector
failure, which the code coerces to `faces = []`).
With no face detected it returns `fall_detected = "1"` with confidence
`0.6`; otherwise it scores the first face's aspect ratio and relative area. -/
def analyze_scene (frame_w frame_h : ℚ) (faces : List (ℚ × ℚ × ℚ × ℚ)) :
    VisionResult :=
  let frame_area : ℚ := max 1 (frame_w * frame_h)
  match faces with
  | [] => { fall_detected := "1", confidence := 3/5 }
  | f :: _ =>
    let w := f.2.2.1
    let h := f.2.2.2
    let ratio : ℚ := if h ≠ 0 then w / h else 0
    let face_area : ℚ := w * h
    let face_area_norm : ℚ := min 1 (max 0 (face_area / (12/100 * frame_area)))
    let ratio_score : ℚ := if 1 < ratio then min 1 ((ratio - 1) / (3/2 - 1)) else 0
    let confidence : ℚ :=
      round2 (min (99/100) (max 0 (3/5 * face_area_norm + 2/5 * ratio_score)))
    let fall_flag : Bool :=
      decide (7/10 ≤ ratio_score) || decide (9/10 ≤ face_area_norm)
    { fall_detected := if fall_flag then "1" else "0", confidence := confidence }

/-! ### The local camera loop (`emotion_publish_loop`), one iteration -/

/-- Observable outcome of one iteration of `emotion_publish_loop`:
the `fall_flag` and confidence published on the cam topic, whether a
`handle_emergency` thread is spawned, and the
`global_camera_fall_detected` flag. -/
structure EmotionCycleOut where
  fall_flag : String
  camera_conf : ℚ
  publishedConfidence : ℚ
  triggersEmergency : Bool
  cameraFallDetected : Bool
deriving DecidableEq

/-- One iteration of `emotion_publish_loop`. `vres = none` models a vision
error: `analyze_scene` returned `None` or raised (the `except` branch), in
which case `fall_flag` stays `'0'` and `camera_conf` stays `0.0`.
Otherwise `fall_flag` becomes `'1'` exactly when the result reports
`fall_detected == '1'` and its confidence meets
`CAM_FALL_CONF_THRESHOLD`; the emergency protocol is spawned iff
`fall_flag == '1'`, and the published payload carries `round(conf, 2)`. -/
def emotionPublishCycle (vres : Option VisionResult) : EmotionCycleOut :=
  let conf : ℚ := match vres with | some r => r.confidence | none => 0
  let flag : String :=
    match vres with
    | some r =>
        if r.fall_detected = "1" ∧ Config.CAM_FALL_CONF_THRESHOLD ≤ r.confidence
        then "1" else "0"
    | none => "0"
  { fall_flag := flag, camera_conf := conf,
    publishedConfidence := round2 conf,
    triggersEmergency := flag == "1", cameraFallDetected := flag == "1" }

/-! ### Environment reads (`modules/hardware_ctrl.py`, `read_env`) -/

/-- A value in the env dict: a number, or the explicit `"N/A"` marker. -/
inductive EnvField where
  | num (v : ℚ)
  | na
deriving DecidableEq

/-- The dict returned by `HardwareManager.read_env`: the smoke entry is
always a number (`0` or `1`), only temp/humidity can be `"N/A"`. -/
structure EnvSample where
  temp : EnvField
  humidity : EnvField
  smoke : ℕ
deriving DecidableEq

/-- `HardwareManager.read_env`. `dht` is the DHT outcome: `some (t, h)`
when a retry attempt succeeded, `none` when the device is absent or all
three attempts failed (the code then sets `temp = hum = None`).
`smokeSensor` is the digital smoke read: `some b` on success, `none` when
the sensor is absent or the read raised — in which case the code
substitutes `random.randint(0, 1)`, modelled by the oracle
`randomBit % 2`. The function is total: no failure aborts the cycle. -/
def read_env (dht : Option (ℚ × ℚ)) (smokeSensor : Option Bool)
    (randomBit : ℕ) : EnvSample :=
  { temp := match dht with | some th => .num (round1 th.1) | none => .na
    humidity := match dht with | some th => .num (round1 th.2) | none => .na
    smoke := match smokeSensor with
             | some b => if b then 1 else 0
             | none => randomBit % 2 }

/-- The env-related part of the Shared Status View
(`global_temperature`, `global_humidity`, `global_smoke_status`). -/
structure StatusView where
  temperature : EnvField
  humidity : EnvField
  smokeStatus : String
deriving DecidableEq

/-- How `env_loop` reflects a sample into the web globals:
`global_temperature = str(env.get('temp', 'N/A'))` (the `"N/A"` marker is
passed through as-is), likewise humidity, and
`global_smoke_status = "SMOKE_DETECTED" if smoke == 1 else "SMOKE_OK"`. -/
def envLoopUpdate (s : EnvSample) : StatusView :=
  { temperature := s.temp, humidity := s.humidity,
    smokeStatus := if s.smoke = 1 then "SMOKE_DETECTED" else "SMOKE_OK" }

/-! ### Concrete message sequences used below -/

/-- Two motion messages with `g_force = 5.0`, both far above the limit:
two confirm signals, the second arriving while the first actuation cycle
is still in flight. -/
def twoHighG : List InMsg :=
  [.motion ⟨some 5, some 0⟩, .motion ⟨some 5, some 0⟩]

/-- Two confirming camera messages. -/
def twoCamConfirms : List InMsg := [.cam 1 (some (9/10)), .cam 1 none]

/-- A non-confirming vision assessment (`fall_detected = 0`,
confidence `0`) delivered just before a motion message with
`g_force = 3.0`. -/
def visionThenImpact : List InMsg :=
  [.cam 0 (some 0), .motion ⟨some 3, some 0⟩]

/-! ### Helper lemmas -/

/-- Each spawned `handle_emergency` contributes exactly one activation and
one reset to the trace. -/
theorem trace_counts (l : List InMsg) :
    actuationCount (l.flatMap fun _ => handle_emergency) = l.length ∧
    resetCount (l.flatMap fun _ => handle_emergency) = l.length := by
  have hA : List.countP (fun x => x == HwAction.triggerEmergency)
      handle_emergency = 1 := rfl
  have hR : List.countP (fun x => x == HwAction.resetEmergency)
      handle_emergency = 1 := rfl
  induction l with
  | nil => exact ⟨rfl, rfl⟩
  | cons a l ih =>
      obtain ⟨ih1, ih2⟩ := ih
      simp only [actuationCount, resetCount] at ih1 ih2 ⊢
      rw [List.flatMap_cons, List.countP_append, List.countP_append,
        List.length_cons, ih1, ih2, hA, hR]
      omega

/-- Clamping a confidence into `[0,1]` does not change the outcome of the
comparison with `CAM_FALL_CONF_THRESHOLD = 0.6`. -/
theorem clamp01_threshold_iff (v : ℚ) :
    Config.CAM_FALL_CONF_THRESHOLD ≤ clamp01 v ↔
      Config.CAM_FALL_CONF_THRESHOLD ≤ v := by
  unfold clamp01 Config.CAM_FALL_CONF_THRESHOLD
  rw [le_max_iff, le_min_iff]
  norm_num

/-! ### Claims -/

/-- C1, counterexample: two confirm signals (the second delivered while
the first actuation cycle is in flight) produce TWO actuation cycles and
TWO resets, not one: `on_mqtt_message` spawns a fresh `handle_emergency`
thread for every confirming message and keeps no Active-phase state, so a
confirm during an active window is not a no-op. -/
theorem second_confirm_not_noop :
    spawnedCycles twoHighG = 2 ∧
    actuationCount (emergencyTrace twoHighG) = 2 ∧
    resetCount (emergencyTrace twoHighG) = 2 ∧
    actuationCount (emergencyTrace twoHighG) ≠ 1 := by
  have hc : confirms (InMsg.motion ⟨some 5, some 0⟩) = true := by
    norm_num [confirms, motionTriggers, parsedG, Config.G_FORCE_LIMIT]
  have hfilter : twoHighG.filter confirms = twoHighG := by
    simp [twoHighG, List.filter_cons, hc]
  have hlen : (twoHighG.filter confirms).length = 2 := by rw [hfilter]; rfl
  have hA : actuationCount (emergencyTrace twoHighG) = 2 :=
    (trace_counts (twoHighG.filter confirms)).1.trans hlen
  have hR : resetCount (emergencyTrace twoHighG) = 2 :=
    (trace_counts (twoHighG.filter confirms)).2.trans hlen
  exact ⟨hlen, hA, hR, by omega⟩

/-- C1, amended: every confirming message spawns its own full actuation
cycle; `n` confirm signals produce exactly `n` activations and `n` resets,
with no idempotence check anywhere. -/
theorem confirm_cycles_linear (msgs : List InMsg) :
    actuationCount (emergencyTrace msgs) = spawnedCycles msgs ∧
    resetCount (emergencyTrace msgs) = spawnedCycles msgs :=
  trace_counts (msgs.filter confirms)

/-- C2, counterexample: a vision assessment that does not confirm
(`fall_detected = 0`, confidence `0`) is available when a motion message
with `g_force = 3.0 > G_FORCE_LIMIT` arrives, yet the engine confirms and
spawns an actuation cycle: the motion path never consults vision, so the
claimed vision gating of a primary trigger does not hold. -/
theorem motion_ignores_available_vision :
    camTrigger 0 (some 0) = false ∧
    confirms (InMsg.motion ⟨some 3, some 0⟩) = true ∧
    spawnedCycles visionThenImpact = 1 ∧
    spawnedCycles visionThenImpact ≠ 0 := by
  have h0 : camTrigger 0 (some 0) = false := by norm_num [camTrigger]
  have h3 : confirms (InMsg.motion ⟨some 3, some 0⟩) = true := by
    norm_num [confirms, motionTriggers, parsedG, Config.G_FORCE_LIMIT]
  have hcam : confirms (InMsg.cam 0 (some 0)) = false := h0
  have hlen : spawnedCycles visionThenImpact = 1 := by
    simp [spawnedCycles, visionThenImpact, List.filter_cons, hcam, h3]
  exact ⟨h0, h3, hlen, by omega⟩

/-- C2, amended: for every motion message with `g_force > G_FORCE_LIMIT`
the engine confirms immediately and unconditionally; no vision assessment
is awaited or consulted, so absence of vision never suppresses the alarm
(fail-open holds trivially), but an available non-confirming assessment
does not suppress it either. -/
theorem motion_trigger_unconditional (p : MotionPayload) (f : ℤ)
    (c : Option ℚ) (h : Config.G_FORCE_LIMIT < parsedG p) :
    confirms (InMsg.motion p) = true ∧
    spawnedCycles [InMsg.cam f c, InMsg.motion p] =
      spawnedCycles [InMsg.cam f c] + 1 := by
  have hm : confirms (InMsg.motion p) = true := by
    simp [confirms, motionTriggers, h]
  refine ⟨hm, ?_⟩
  cases hcam : confirms (InMsg.cam f c) <;>
    simp [spawnedCycles, List.filter_cons, hcam, hm]

/-- C2, witness for `motion_trigger_unconditional` at
`g_force = 3.0`, vision `(fall_detected = 0, confidence = 0)`. -/
theorem motion_trigger_unconditional_witness :
    confirms (InMsg.motion ⟨some 3, some 0⟩) = true ∧
    spawnedCycles [InMsg.cam 0 (some 0), InMsg.motion ⟨some 3, some 0⟩] =
      spawnedCycles [InMsg.cam 0 (some 0)] + 1 :=
  motion_trigger_unconditional ⟨some 3, some 0⟩ 0 (some 0)
    (by norm_num [parsedG, Config.G_FORCE_LIMIT])

/-- C3: the motion path starts the emergency protocol iff the parsed
`g_force` is strictly greater than `G_FORCE_LIMIT`; for every
`g_force ≤ G_FORCE_LIMIT` the motion message confirms nothing. -/
theorem motion_threshold_iff (p : MotionPayload) :
    (motionTriggers p = true ↔ Config.G_FORCE_LIMIT < parsedG p) ∧
    (parsedG p ≤ Config.G_FORCE_LIMIT → confirms (InMsg.motion p) = false) := by
  constructor
  · simp [motionTriggers]
  · intro h
    simp [confirms, motionTriggers, not_lt.mpr h]

/-- C3, witness for `motion_threshold_iff` at `g_force = 1.0`. -/
theorem motion_threshold_iff_witness :
    confirms (InMsg.motion ⟨some 1, some 0⟩) = false :=
  (motion_threshold_iff ⟨some 1, some 0⟩).2
    (by norm_num [parsedG, Config.G_FORCE_LIMIT])

/-- C4: the camera branch confirms iff `fall_detected = 1` and the
confidence is either absent (legacy producer) or at least
`CAM_FALL_CONF_THRESHOLD`; in particular `fall_detected = 1` with
confidence `0.4 < 0.6` does not confirm. -/
theorem cam_policy_iff (f : ℤ) (c : Option ℚ) :
    (camTrigger f c = true ↔
      f = 1 ∧ (c = none ∨
        ∃ v, c = some v ∧ Config.CAM_FALL_CONF_THRESHOLD ≤ v)) ∧
    camTrigger 1 (some (2/5)) = false := by
  refine ⟨?_, by norm_num [camTrigger, Config.CAM_FALL_CONF_THRESHOLD]⟩
  unfold camTrigger
  split
  · next hf =>
      cases c with
      | none => simp [hf]
      | some v => simp [hf]
  · next hf => simp [hf]

/-- C5, counterexample: two confirm signals produce two resets, not the
claimed single reset per confirmed episode: each spawned
`handle_emergency` thread performs its own reset. -/
theorem reset_not_once :
    resetCount (emergencyTrace twoCamConfirms) = 2 ∧
    resetCount (emergencyTrace twoCamConfirms) ≠ 1 := by
  have hc1 : confirms (InMsg.cam 1 (some (9/10))) = true := by
    norm_num [confirms, camTrigger, Config.CAM_FALL_CONF_THRESHOLD]
  have hc2 : confirms (InMsg.cam 1 none) = true := by
    norm_num [confirms, camTrigger]
  have hfilter : twoCamConfirms.filter confirms = twoCamConfirms := by
    simp [twoCamConfirms, List.filter_cons, hc1, hc2]
  have hlen : (twoCamConfirms.filter confirms).length = 2 := by rw [hfilter]; rfl
  have hR : resetCount (emergencyTrace twoCamConfirms) = 2 :=
    (trace_counts (twoCamConfirms.filter confirms)).2.trans hlen
  exact ⟨hR, by omega⟩

/-- C5, amended: each `handle_emergency` invocation performs exactly one
reset, 3 seconds (hardcoded `time.sleep(3)`, not a configuration option)
after its own activation; `n` confirming messages produce `n` resets. -/
theorem reset_per_invocation (msgs : List InMsg) :
    resetCount handle_emergency = 1 ∧
    sleepBeforeFirstReset handle_emergency = 3 ∧
    resetCount (emergencyTrace msgs) = spawnedCycles msgs :=
  ⟨rfl, rfl, (trace_counts (msgs.filter confirms)).2⟩

/-- C6, counterexample: a cycle in which the smoke read fails is
indistinguishable from a cycle in which the sensor genuinely reported
smoke (and, with the other random outcome, from one that genuinely
reported no smoke): the failure is synthesized as a fabricated `0/1`
value, in the sample and in the status view, not as an absent value. -/
theorem smoke_failure_fabricated :
    read_env none none 1 = read_env none (some true) 1 ∧
    read_env none none 0 = read_env none (some false) 0 ∧
    (read_env none none 1).smoke = 1 ∧
    envLoopUpdate (read_env none none 1) =
      envLoopUpdate (read_env none (some true) 1) := by
  refine ⟨rfl, rfl, rfl, rfl⟩

/-- C6, amended: temperature and humidity read failures are represented
as the explicit `"N/A"` marker in the returned sample and in the status
view; a smoke read failure is instead synthesized as a random `0` or `1`;
the cycle never aborts (`read_env` is total). -/
theorem env_failure_representation (smokeSensor : Option Bool) (rb : ℕ)
    (d : Option (ℚ × ℚ)) :
    (read_env none smokeSensor rb).temp = EnvField.na ∧
    (read_env none smokeSensor rb).humidity = EnvField.na ∧
    (envLoopUpdate (read_env none smokeSensor rb)).temperature = EnvField.na ∧
    (envLoopUpdate (read_env none smokeSensor rb)).humidity = EnvField.na ∧
    ((read_env d none rb).smoke = 0 ∨ (read_env d none rb).smoke = 1) := by
  refine ⟨rfl, rfl, rfl, rfl, ?_⟩
  show rb % 2 = 0 ∨ rb % 2 = 1
  exact Nat.mod_two_eq_zero_or_one rb

/-- C7: the cam branch's trigger decision coincides, on every input, with
the spec's clamped variant (clamp into `[0,1]` before comparing with the
threshold); since `0 < CAM_FALL_CONF_THRESHOLD ≤ 1`, an out-of-range
confidence behaves exactly as its clamped image. -/
theorem cam_trigger_as_if_clamped (f : ℤ) (c : Option ℚ) :
    camTrigger f c = camTriggerClamped f c ∧
    0 < Config.CAM_FALL_CONF_THRESHOLD ∧
    Config.CAM_FALL_CONF_THRESHOLD ≤ 1 := by
  refine ⟨?_, by norm_num [Config.CAM_FALL_CONF_THRESHOLD],
    by norm_num [Config.CAM_FALL_CONF_THRESHOLD]⟩
  unfold camTrigger camTriggerClamped
  by_cases hf : f = 1
  · rw [if_pos hf, if_pos hf]
    cases c with
    | none => rfl
    | some v => simp [decide_eq_decide, clamp01_threshold_iff]
  · rw [if_neg hf, if_neg hf]

/-- C8: a frame with zero detected faces yields
`fall_detected = "1"` with confidence exactly `0.6`; the default
threshold is `0.6`, so this single result satisfies the local camera
loop's emergency-confirmation condition and spawns the emergency
protocol. -/
theorem no_face_frame_confirms (frame_w frame_h : ℚ) :
    analyze_scene frame_w frame_h [] =
      { fall_detected := "1", confidence := 3/5 } ∧
    Config.CAM_FALL_CONF_THRESHOLD = 3/5 ∧
    (emotionPublishCycle (some (analyze_scene frame_w frame_h []))).fall_flag
      = "1" ∧
    (emotionPublishCycle
      (some (analyze_scene frame_w frame_h []))).triggersEmergency = true := by
  have h : analyze_scene frame_w frame_h [] =
      { fall_detected := "1", confidence := 3/5 } := rfl
  refine ⟨h, rfl, ?_, ?_⟩ <;> rw [h] <;>
    norm_num [emotionPublishCycle, Config.CAM_FALL_CONF_THRESHOLD]

/-- C9: any motion message with parsed `g_force ≤ G_FORCE_LIMIT` sets the
critical-alert field to `"ALERT_OK"`, whatever the prior state — even
when the alert was `"FALL DETECTED"` and an emergency actuation cycle is
still in flight. -/
theorem low_g_clears_alert (s : GatewayState) (p : MotionPayload)
    (h : parsedG p ≤ Config.G_FORCE_LIMIT) :
    (applyMotion s p).criticalAlert = "ALERT_OK" := by
  unfold applyMotion
  rw [if_neg (not_lt.mpr h)]

/-- C9, witness for `low_g_clears_alert`: alert previously
`"FALL DETECTED"`, one emergency cycle in flight, motion `g_force = 1.0`. -/
theorem low_g_clears_alert_witness :
    (applyMotion ⟨"FALL DETECTED", 5, 0, 1⟩ ⟨some 1, some 0⟩).criticalAlert
      = "ALERT_OK" :=
  low_g_clears_alert ⟨"FALL DETECTED", 5, 0, 1⟩ ⟨some 1, some 0⟩
    (by norm_num [parsedG, Config.G_FORCE_LIMIT])

/-- C10: the local loop publishes `fall_detected = "1"` iff the vision
result of that cycle reported a fall with confidence at least
`CAM_FALL_CONF_THRESHOLD`; on a vision error the cycle publishes
`fall_detected = "0"` with confidence `0.0` and spawns no emergency. -/
theorem emotion_publish_invariant (vres : Option VisionResult) :
    ((emotionPublishCycle vres).fall_flag = "1" ↔
      ∃ r, vres = some r ∧ r.fall_detected = "1" ∧
        Config.CAM_FALL_CONF_THRESHOLD ≤ r.confidence) ∧
    emotionPublishCycle none =
      { fall_flag := "0", camera_conf := 0, publishedConfidence := 0,
        triggersEmergency := false, cameraFallDetected := false } := by
  constructor
  · cases vres with
    | none => simp [emotionPublishCycle]
    | some r =>
        show (if r.fall_detected = "1" ∧
            Config.CAM_FALL_CONF_THRESHOLD ≤ r.confidence
          then "1" else "0") = "1" ↔ _
        split
        · next hcond => simp [hcond]
        · next hcond => simp [hcond]
  · show EmotionCycleOut.mk "0" 0 (round2 0) ("0" == "1") ("0" == "1") = _
    simp [round2]

end ElderSafe
